import Mathlib

/-!
Shallow embedding of `src/main.rs` of the cloudflare-ddns repository:
a dynamic-DNS synchronizer that compares the caller's public IPv4 address
with the address a domain resolves to and, when they differ, patches the
matching Cloudflare "A" record.

The effectful program is modelled as a pure function `run` over a `World`
record that supplies the outcome of every external interaction (the
address-echo HTTP body, the system resolver's answer, the environment
variable, and the provider's three API responses).  `run` returns the
process outcome together with the ordered list of network calls performed
and the list of status lines printed, so that claims about call counts,
call payloads and printed messages can be stated directly.

The model is restricted to IPv4 addresses: the program is an IPv4 DDNS
tool and the specification declares IPv6 handling a non-goal.  Machine
strings are Lean `String`s; the record `ttl` (Rust `isize`) is `Int`.
-/

namespace CloudflareDdns

/-- A parsed IPv4 address: four octets (Rust `Ipv4Addr` holds four `u8`;
octets produced by `parseIPv4` are at most 255). -/
structure IPv4 where
  a : Nat
  b : Nat
  c : Nat
  d : Nat
deriving DecidableEq, Repr

/-- Is `c` an ASCII decimal digit?  Mirrors the digit test of Rust's
`Ipv4Addr` text parser. -/
def isDigitChar (c : Char) : Bool :=
  match c with
  | '0' => true | '1' => true | '2' => true | '3' => true | '4' => true
  | '5' => true | '6' => true | '7' => true | '8' => true | '9' => true
  | _ => false

/-- Numeric value of an ASCII digit (0 for non-digits; only applied to
digits). -/
def digitVal (c : Char) : Nat :=
  match c with
  | '0' => 0 | '1' => 1 | '2' => 2 | '3' => 3 | '4' => 4
  | '5' => 5 | '6' => 6 | '7' => 7 | '8' => 8 | '9' => 9
  | _ => 0

/-- Parse one dotted-quad component the way Rust's `Ipv4Addr` parser does:
nonempty, all ASCII digits, no leading zero (`"0"` itself is allowed),
value at most 255. -/
def parseOctet (l : List Char) : Option Nat :=
  if l = [] then none
  else if ¬ l.all isDigitChar then none
  else if l.head? = some '0' ∧ l ≠ ['0'] then none
  else if Nat.ofDigits 10 (l.map digitVal).reverse ≤ 255 then
    some (Nat.ofDigits 10 (l.map digitVal).reverse)
  else none

/-- Rust `str::parse::<IpAddr>` restricted to its IPv4 grammar: exactly
four components separated by `'.'`, each a valid octet. -/
def parseIPv4 (s : String) : Option IPv4 :=
  match s.toList.splitOn '.' with
  | [p1, p2, p3, p4] =>
    match parseOctet p1, parseOctet p2, parseOctet p3, parseOctet p4 with
    | some a, some b, some c, some d => some ⟨a, b, c, d⟩
    | _, _, _, _ => none
  | _ => none

/-- Decimal rendering of one octet (Rust `u8` `Display`): base-10 digits,
most significant first, no leading zeros, `"0"` for zero. -/
def octetChars (n : Nat) : List Char :=
  if n = 0 then ['0'] else ((Nat.digits 10 n).map Nat.digitChar).reverse

/-- Rust `Ipv4Addr` `Display` / `to_string`: the four octets in decimal,
joined with `'.'`. -/
def IPv4.toText (ip : IPv4) : String :=
  ⟨List.intercalate ['.'] [octetChars ip.a, octetChars ip.b, octetChars ip.c, octetChars ip.d]⟩

/-- Cloudflare zone, as deserialized from the zones listing
(`struct Zone` in the source). -/
structure Zone where
  id : String
  name : String
deriving DecidableEq, Repr

/-- Cloudflare DNS record, as deserialized from the records listing and
serialized back as the PATCH body (`struct DnsRecord` in the source). -/
structure DnsRecord where
  id : String
  zone_id : String
  name : String
  type : String
  content : String
  ttl : Int
deriving DecidableEq, Repr

/-- A transport-level failure of an external interaction (`ureq::Error`,
`io::Error`): the program never inspects its payload, only propagates. -/
inductive NetErr
  | transport
deriving DecidableEq, Repr

/-- One external network interaction performed by the run, in order:
the address-echo GET, the system name resolution, and the three provider
API calls.  A `patch` call records the zone id and record id placed in the
request URL and the full JSON body sent. -/
inductive Call
  | echoGet
  | dnsResolve (domain : String)
  | getZones
  | getRecords (zone_id : String)
  | patch (zone_id : String) (record_id : String) (body : DnsRecord)
deriving DecidableEq, Repr

/-- Is this call one of the three provider (Cloudflare) API calls? -/
def Call.isProviderCall : Call → Bool
  | .getZones => true
  | .getRecords _ => true
  | .patch _ _ _ => true
  | _ => false

/-- Is this call the mutating PATCH? -/
def Call.isPatch : Call → Bool
  | .patch _ _ _ => true
  | _ => false

/-- How the process terminates.  `err` carries the outermost `anyhow`
context message; `envErr` is the raw `std::env::VarError` from the `?` on
`env::var` (no context attached in the source); `transportErr` is a raw
`ureq`/`io` error propagated by a bare `?`; `panic` is an uncaught Rust
panic (from `unwrap`), which is not an error return at all. -/
inductive RunResult
  | ok
  | err (msg : String)
  | envErr (name : String)
  | transportErr
  | panic
deriving DecidableEq, Repr

/-- The environment a single run executes against: the outcome of each
external interaction the program may perform. -/
structure World where
  /-- Body text of `GET https://api.ipify.org` (`into_string`), or a
  transport failure. -/
  echoResponse : Except NetErr String
  /-- Addresses yielded by `to_socket_addrs` on `"{domain}:80"`, in
  resolver order, or a resolution failure. -/
  dnsAddrs : Except NetErr (List IPv4)
  /-- Value of the `CLOUDFLARE_API_KEY` environment variable, if set. -/
  apiKey : Option String
  /-- `result` field of `GET /zones`, or a transport failure. -/
  zonesResponse : Except NetErr (List Zone)
  /-- `result` field of `GET /zones/{zone_id}/dns_records`, keyed by the
  zone id in the URL, or a transport failure. -/
  recordsResponse : String → Except NetErr (List DnsRecord)
  /-- `success` field of the PATCH response for a given request body, or a
  transport failure. -/
  patchResponse : DnsRecord → Except NetErr Bool

/-- Printed by `main` when the two addresses agree. -/
def matchMsg : String := "IPv4 Address matches. Exiting."

/-- Printed by `main` when the two addresses differ. -/
def mismatchMsg : String :=
  "IPv4 Address does not match. Updating Cloudflare DNS records."

/-- Printed by `main` after a PATCH whose response has `success == true`. -/
def updatedMsg (dnsIp currentIp : IPv4) : String :=
  "Updated DNS Record from " ++ dnsIp.toText ++ " to " ++ currentIp.toText

/-- Outcome of one run: termination result, the ordered network calls
performed, and the status lines printed. -/
structure RunOut where
  result : RunResult
  calls : List Call
  printed : List String
deriving DecidableEq, Repr

/-- The whole of `fn main` (together with its helpers `public_ip`,
`dns_ip`, `get_zones`, `get_dns_records`, `patch_dns_record`), as a pure
function of the world.  Each arm mirrors one early exit of the source:
transport failure of `public_ip` is wrapped with the context
"Getting current public IPv4 Address"; a body that does not parse makes
`unwrap` panic; both failure modes of `dns_ip` surface under the context
"Getting IPv4 Address Associated With Domain"; equal addresses return
`Ok(())` before the environment variable is read; a missing variable is
the bare `env::var` error; `get_zones` and `get_dns_records` transport
errors propagate with no context while their failed lookups get
"Getting Zone for Domain" / "Getting A Record"; the PATCH is addressed by
the (content-mutated) record's own `zone_id` and `id` fields and its
transport errors get "Patching DNS Record"; `success == false` merely
skips the final message. -/
def run (domain : String) (w : World) : RunOut :=
  match w.echoResponse with
  | .error _ => ⟨.err "Getting current public IPv4 Address", [.echoGet], []⟩
  | .ok body =>
    match parseIPv4 body with
    | none => ⟨.panic, [.echoGet], []⟩
    | some currentIp =>
      match w.dnsAddrs with
      | .error _ =>
        ⟨.err "Getting IPv4 Address Associated With Domain", [.echoGet, .dnsResolve domain], []⟩
      | .ok addrs =>
        match addrs.head? with
        | none =>
          ⟨.err "Getting IPv4 Address Associated With Domain", [.echoGet, .dnsResolve domain], []⟩
        | some dnsIp =>
          if currentIp = dnsIp then
            ⟨.ok, [.echoGet, .dnsResolve domain], [matchMsg]⟩
          else
            match w.apiKey with
            | none =>
              ⟨.envErr "CLOUDFLARE_API_KEY", [.echoGet, .dnsResolve domain], [mismatchMsg]⟩
            | some _ =>
              match w.zonesResponse with
              | .error _ =>
                ⟨.transportErr, [.echoGet, .dnsResolve domain, .getZones], [mismatchMsg]⟩
              | .ok zones =>
                match zones.find? (fun zone => zone.name == domain) with
                | none =>
                  ⟨.err "Getting Zone for Domain", [.echoGet, .dnsResolve domain, .getZones],
                    [mismatchMsg]⟩
                | some zone =>
                  match w.recordsResponse zone.id with
                  | .error _ =>
                    ⟨.transportErr,
                      [.echoGet, .dnsResolve domain, .getZones, .getRecords zone.id],
                      [mismatchMsg]⟩
                  | .ok records =>
                    match records.find? (fun r => r.type == "A" && r.name == domain) with
                    | none =>
                      ⟨.err "Getting A Record",
                        [.echoGet, .dnsResolve domain, .getZones, .getRecords zone.id],
                        [mismatchMsg]⟩
                    | some record =>
                      let updated : DnsRecord := { record with content := currentIp.toText }
                      let calls : List Call :=
                        [.echoGet, .dnsResolve domain, .getZones, .getRecords zone.id,
                          .patch updated.zone_id updated.id updated]
                      match w.patchResponse updated with
                      | .error _ => ⟨.err "Patching DNS Record", calls, [mismatchMsg]⟩
                      | .ok success =>
                        if success then
                          ⟨.ok, calls, [mismatchMsg, updatedMsg dnsIp currentIp]⟩
                        else
                          ⟨.ok, calls, [mismatchMsg]⟩

/-- The "A" record of spec scenario B. -/
def exampleRecord : DnsRecord :=
  ⟨"r1", "z1", "example.com", "A", "1.2.3.4", 300⟩

/-- Spec end-to-end scenario A: current and resolved address agree
(the credential is deliberately absent: it is never consulted). -/
def worldA : World :=
  ⟨.ok "1.2.3.4", .ok [⟨1, 2, 3, 4⟩], none, .ok [], fun _ => .ok [], fun _ => .ok true⟩

/-- Spec end-to-end scenario B: addresses differ, zone and record exist,
PATCH succeeds. -/
def worldB : World :=
  ⟨.ok "5.6.7.8", .ok [⟨1, 2, 3, 4⟩], some "k", .ok [⟨"z1", "example.com"⟩],
    fun _ => .ok [exampleRecord], fun _ => .ok true⟩

/-- Spec end-to-end scenario C: as B but the PATCH response reports
`success == false`. -/
def worldC : World :=
  ⟨.ok "5.6.7.8", .ok [⟨1, 2, 3, 4⟩], some "k", .ok [⟨"z1", "example.com"⟩],
    fun _ => .ok [exampleRecord], fun _ => .ok false⟩

/-- As scenario B, except the provider returns a record whose `zone_id`
field (`"zX"`) differs from the id of the looked-up zone (`"z1"`). -/
def worldZidMismatch : World :=
  ⟨.ok "5.6.7.8", .ok [⟨1, 2, 3, 4⟩], some "k", .ok [⟨"z1", "example.com"⟩],
    fun _ => .ok [⟨"r1", "zX", "example.com", "A", "1.2.3.4", 300⟩], fun _ => .ok true⟩

/-- Addresses differ and the credential environment variable is absent. -/
def worldNoKey : World :=
  ⟨.ok "5.6.7.8", .ok [⟨1, 2, 3, 4⟩], none, .ok [], fun _ => .ok [], fun _ => .ok true⟩

/-- The address-echo service answers with a body that is not an IP
address. -/
def worldBadBody : World :=
  ⟨.ok "abc", .ok [⟨1, 2, 3, 4⟩], some "k", .ok [], fun _ => .ok [], fun _ => .ok true⟩

/-- Zone list with a near-match before and a duplicate after the first
exact match. -/
def worldDupZones : World :=
  ⟨.ok "5.6.7.8", .ok [⟨1, 2, 3, 4⟩], some "k",
    .ok [⟨"z0", "sub.example.com"⟩, ⟨"z1", "example.com"⟩, ⟨"z2", "example.com"⟩],
    fun _ => .ok [exampleRecord], fun _ => .ok true⟩

/-- No zone matches the domain. -/
def worldNoZone : World :=
  ⟨.ok "5.6.7.8", .ok [⟨1, 2, 3, 4⟩], some "k", .ok [⟨"z0", "other.com"⟩],
    fun _ => .ok [exampleRecord], fun _ => .ok true⟩

/-- The zone's record list holds only a CNAME for the domain. -/
def worldCnameOnly : World :=
  ⟨.ok "5.6.7.8", .ok [⟨1, 2, 3, 4⟩], some "k", .ok [⟨"z1", "example.com"⟩],
    fun _ => .ok [⟨"r9", "z1", "example.com", "CNAME", "target.example.net", 300⟩],
    fun _ => .ok true⟩

/-! ## Helper lemmas -/

theorem digitChar_digitVal {c : Char} (h : isDigitChar c = true) :
    Nat.digitChar (digitVal c) = c := by
  unfold isDigitChar at h
  split at h <;> first | rfl | exact absurd h (by decide)

theorem digitVal_lt_ten {c : Char} (h : isDigitChar c = true) : digitVal c < 10 := by
  unfold isDigitChar at h
  split at h <;> first | decide | exact absurd h (by decide)

theorem digitVal_ne_zero {c : Char} (h : isDigitChar c = true) (hc : c ≠ '0') :
    digitVal c ≠ 0 := by
  unfold isDigitChar at h
  split at h <;> first | decide | simp_all

/-- Formatting inverts octet parsing: a component accepted by the parser
is recovered verbatim by decimal rendering of its value. -/
theorem octetChars_of_parseOctet {l : List Char} {n : Nat} (h : parseOctet l = some n) :
    octetChars n = l := by
  unfold parseOctet at h
  split_ifs at h with h1 h2 h3 h4
  replace h : Nat.ofDigits 10 (l.map digitVal).reverse = n := Option.some.inj h
  by_cases h0 : l = ['0']
  · subst h0
    have hn : n = 0 := by simpa [digitVal, Nat.ofDigits] using h.symm
    simp [hn, octetChars]
  · have hhead : l.head? ≠ some '0' := fun hh => h3 ⟨hh, h0⟩
    obtain ⟨c, t, rfl⟩ : ∃ c t, l = c :: t := by
      cases l with
      | nil => exact absurd rfl h1
      | cons c t => exact ⟨c, t, rfl⟩
    have hc : c ≠ '0' := by
      intro hcc
      exact hhead (by simp [hcc])
    have hall : ∀ x ∈ c :: t, isDigitChar x = true := by
      simpa [List.all_eq_true] using h2
    have w₁ : ∀ x ∈ ((c :: t).map digitVal).reverse, x < 10 := by
      intro x hx
      rw [List.mem_reverse, List.mem_map] at hx
      obtain ⟨d, hd, rfl⟩ := hx
      exact digitVal_lt_ten (hall d hd)
    have hne : ((c :: t).map digitVal).reverse ≠ [] := by simp
    have w₂ : ∀ hh : ((c :: t).map digitVal).reverse ≠ [],
        (((c :: t).map digitVal).reverse).getLast hh ≠ 0 := by
      intro hh
      have hlast? : (((c :: t).map digitVal).reverse).getLast? = some (digitVal c) := by
        rw [List.getLast?_reverse]
        simp
      rw [List.getLast?_eq_getLast _ hh] at hlast?
      rw [Option.some.inj hlast?]
      exact digitVal_ne_zero (hall c (List.mem_cons_self c t)) hc
    have hdig : Nat.digits 10 n = ((c :: t).map digitVal).reverse := by
      rw [← h]
      exact Nat.digits_ofDigits 10 (by norm_num) _ w₁ w₂
    have hn0 : n ≠ 0 := by
      intro hn
      rw [hn, Nat.digits_zero] at hdig
      exact hne hdig.symm
    rw [octetChars, if_neg hn0, hdig, List.map_reverse, List.reverse_reverse, List.map_map]
    have hmap : List.map (Nat.digitChar ∘ digitVal) (c :: t) = List.map id (c :: t) :=
      List.map_congr_left fun d hd => digitChar_digitVal (hall d hd)
    simpa using hmap

/-- The success message always starts with a different character than the
mismatch status line, whatever the two addresses are. -/
theorem updatedMsg_ne_mismatchMsg (o n : IPv4) : updatedMsg o n ≠ mismatchMsg := by
  intro h
  have hh : (updatedMsg o n).data.head? = mismatchMsg.data.head? := by rw [h]
  rw [updatedMsg, String.data_append, String.data_append, String.data_append] at hh
  simp [mismatchMsg] at hh

/-- Formatting inverts parsing of a whole address: a string accepted by
the IPv4 parser is recovered verbatim from the parsed value. -/
theorem toText_of_parseIPv4 {s : String} {ip : IPv4} (h : parseIPv4 s = some ip) :
    IPv4.toText ip = s := by
  unfold parseIPv4 at h
  split at h
  · next p1 p2 p3 p4 heq =>
    split at h
    · next a b c d h1 h2 h3 h4 =>
      cases Option.some.inj h
      show String.mk (List.intercalate ['.']
        [octetChars a, octetChars b, octetChars c, octetChars d]) = s
      rw [octetChars_of_parseOctet h1, octetChars_of_parseOctet h2,
        octetChars_of_parseOctet h3, octetChars_of_parseOctet h4, ← heq,
        List.intercalate_splitOn]
      rfl
    · exact absurd h (by simp)
  · exact absurd h (by simp)

/-- A linear scan returns the first element satisfying the predicate,
whatever comes after it. -/
theorem find?_first {α : Type} (p : α → Bool) (pre : List α) (a : α) (post : List α)
    (hpre : ∀ x ∈ pre, p x = false) (ha : p a = true) :
    (pre ++ a :: post).find? p = some a := by
  induction pre with
  | nil => simp [List.find?_cons, ha]
  | cons x xs ih =>
    have hx := hpre x (List.mem_cons_self x xs)
    simp only [List.cons_append, List.find?_cons, hx]
    exact ih fun y hy => hpre y (List.mem_cons_of_mem x hy)

/-! ## Claims -/

/-- C8: for every string `s` that the program would accept as a textual
IPv4 address, parsing `s` and re-serializing the resulting address value
yields `s` again (parse/format round-trip). -/
theorem parse_toText_roundtrip {s : String} {ip : IPv4} (h : parseIPv4 s = some ip) :
    IPv4.toText ip = s :=
  toText_of_parseIPv4 h

/-- C1: every run performs at most one record mutation, and only when the
two observed addresses differ; equal addresses give a successful run with
zero provider API calls; a missing zone or missing "A" record fails the
run with the corresponding lookup error and zero PATCH calls. -/
theorem run_at_most_one_mutation (domain : String) (w : World) :
    ((run domain w).calls.countP Call.isPatch ≤ 1)
    ∧ ((∃ cl ∈ (run domain w).calls, Call.isPatch cl = true) →
        ∃ body cur addrs dIp, w.echoResponse = .ok body ∧ parseIPv4 body = some cur ∧
          w.dnsAddrs = .ok addrs ∧ addrs.head? = some dIp ∧ cur ≠ dIp)
    ∧ (∀ body cur addrs, w.echoResponse = .ok body → parseIPv4 body = some cur →
        w.dnsAddrs = .ok addrs → addrs.head? = some cur →
        (run domain w).result = .ok ∧ (run domain w).calls.countP Call.isProviderCall = 0)
    ∧ (∀ body cur addrs dIp k zones, w.echoResponse = .ok body → parseIPv4 body = some cur →
        w.dnsAddrs = .ok addrs → addrs.head? = some dIp → cur ≠ dIp → w.apiKey = some k →
        w.zonesResponse = .ok zones → zones.find? (fun z => z.name == domain) = none →
        (run domain w).result = .err "Getting Zone for Domain" ∧
          (run domain w).calls.countP Call.isPatch = 0)
    ∧ (∀ body cur addrs dIp k zones zone records, w.echoResponse = .ok body →
        parseIPv4 body = some cur → w.dnsAddrs = .ok addrs → addrs.head? = some dIp →
        cur ≠ dIp → w.apiKey = some k → w.zonesResponse = .ok zones →
        zones.find? (fun z => z.name == domain) = some zone →
        w.recordsResponse zone.id = .ok records →
        records.find? (fun r => r.type == "A" && r.name == domain) = none →
        (run domain w).result = .err "Getting A Record" ∧
          (run domain w).calls.countP Call.isPatch = 0) := by
  refine ⟨?_, ?_, ?_, ?_, ?_⟩
  · unfold run
    repeat' split
    all_goals try simp [List.countP_cons, List.countP_nil, Call.isPatch]
    all_goals (split <;> try split) <;>
      simp [List.countP_cons, List.countP_nil, Call.isPatch]
  · intro hp
    unfold run at hp
    repeat' split at hp
    all_goals
      first
        | (simp [Call.isPatch] at hp; done)
        | aesop
  · intro body cur addrs h1 h2 h3 h4
    simp [run, h1, h2, h3, h4, List.countP_cons, List.countP_nil, Call.isProviderCall]
  · intro body cur addrs dIp k zones h1 h2 h3 h4 h5 h6 h7 h8
    simp [run, h1, h2, h3, h4, h5, h6, h7, h8, List.countP_cons, List.countP_nil, Call.isPatch]
  · intro body cur addrs dIp k zones zone records h1 h2 h3 h4 h5 h6 h7 h8 h9 h10
    simp [run, h1, h2, h3, h4, h5, h6, h7, h8, h9, h10, List.countP_cons, List.countP_nil,
      Call.isPatch]

/-- Witness for C1: scenario A (equal addresses), where the run succeeds
with zero provider API calls. -/
theorem run_at_most_one_mutation_witness :
    (run "example.com" worldA).result = .ok ∧
      (run "example.com" worldA).calls.countP Call.isProviderCall = 0 :=
  (run_at_most_one_mutation "example.com" worldA).2.2.1 "1.2.3.4" ⟨1, 2, 3, 4⟩
    [⟨1, 2, 3, 4⟩] rfl (by decide) rfl rfl

/-- C2 (amended): whenever the addresses differ and every lookup
succeeds, exactly one PATCH call is made; it is addressed by the
`zone_id` and `id` fields of the fetched record, and its body is the
fetched record with only `content` replaced by the text form of the
current address. -/
theorem patch_targets_fetched_record (domain : String) (w : World) (body : String)
    (cur dIp : IPv4) (addrs : List IPv4) (k : String) (zones : List Zone) (zone : Zone)
    (records : List DnsRecord) (record : DnsRecord)
    (h1 : w.echoResponse = .ok body) (h2 : parseIPv4 body = some cur)
    (h3 : w.dnsAddrs = .ok addrs) (h4 : addrs.head? = some dIp) (h5 : cur ≠ dIp)
    (h6 : w.apiKey = some k) (h7 : w.zonesResponse = .ok zones)
    (h8 : zones.find? (fun z => z.name == domain) = some zone)
    (h9 : w.recordsResponse zone.id = .ok records)
    (h10 : records.find? (fun r => r.type == "A" && r.name == domain) = some record) :
    (run domain w).calls.filter Call.isPatch =
      [Call.patch record.zone_id record.id { record with content := cur.toText }] := by
  simp only [run, h1, h2, h3, h4, h6, h7, h8, h9, h10]
  rw [if_neg h5]
  repeat' split
  all_goals simp [Call.isPatch]

/-- Witness for C2 at scenario B. -/
theorem patch_targets_fetched_record_witness :
    (run "example.com" worldB).calls.filter Call.isPatch =
      [Call.patch exampleRecord.zone_id exampleRecord.id
        { exampleRecord with content := IPv4.toText ⟨5, 6, 7, 8⟩ }] :=
  patch_targets_fetched_record "example.com" worldB "5.6.7.8" ⟨5, 6, 7, 8⟩ ⟨1, 2, 3, 4⟩
    [⟨1, 2, 3, 4⟩] "k" [⟨"z1", "example.com"⟩] ⟨"z1", "example.com"⟩ [exampleRecord]
    exampleRecord rfl (by decide) rfl rfl (by decide) rfl rfl (by decide) rfl (by decide)

/-- Counterexample for C2 as stated: the zone lookup resolves zone id
`"z1"`, yet the single PATCH of the run is addressed to zone `"zX"`, the
`zone_id` field of the fetched record. -/
theorem patch_zone_id_counterexample :
    worldZidMismatch.zonesResponse = .ok [⟨"z1", "example.com"⟩] ∧
    (run "example.com" worldZidMismatch).calls.filter Call.isPatch =
      [Call.patch "zX" "r1" ⟨"r1", "zX", "example.com", "A", IPv4.toText ⟨5, 6, 7, 8⟩, 300⟩] ∧
    "zX" ≠ "z1" :=
  ⟨rfl, rfl, by decide⟩

/-- C3: the zone lookup selects the first zone whose `name` equals the
domain, in provider order, even among duplicates and near-matches; with
no matching zone the run fails with the zone-lookup error and performs no
record listing and no PATCH. -/
theorem zone_lookup_first_match_or_fail (domain : String) (w : World) (body : String)
    (cur dIp : IPv4) (addrs : List IPv4) (k : String) (zones : List Zone)
    (h1 : w.echoResponse = .ok body) (h2 : parseIPv4 body = some cur)
    (h3 : w.dnsAddrs = .ok addrs) (h4 : addrs.head? = some dIp) (h5 : cur ≠ dIp)
    (h6 : w.apiKey = some k) (h7 : w.zonesResponse = .ok zones) :
    (∀ pre zone post, zones = pre ++ zone :: post → (∀ z ∈ pre, z.name ≠ domain) →
        zone.name = domain →
        (run domain w).calls.take 4 =
          [.echoGet, .dnsResolve domain, .getZones, .getRecords zone.id])
    ∧ ((∀ z ∈ zones, z.name ≠ domain) →
        (run domain w).result = .err "Getting Zone for Domain" ∧
          (run domain w).calls = [.echoGet, .dnsResolve domain, .getZones]) := by
  constructor
  · rintro pre zone post rfl hpre hzone
    have hfind : (pre ++ zone :: post).find? (fun z => z.name == domain) = some zone :=
      find?_first _ pre zone post (fun x hx => by simpa using hpre x hx) (by simp [hzone])
    simp only [run, h1, h2, h3, h4, h6, h7, hfind]
    rw [if_neg h5]
    repeat' split
    all_goals simp [List.take]
  · intro hall
    have hfind : zones.find? (fun z => z.name == domain) = none := by
      rw [List.find?_eq_none]
      intro x hx
      simpa using hall x hx
    simp [run, h1, h2, h3, h4, h5, h6, h7, hfind]

/-- Witness for C3: among a near-match, an exact match and a duplicate,
the first exact match (`"z1"`) is used for the record listing; with no
match the run stops after the zones call with the lookup error. -/
theorem zone_lookup_first_match_or_fail_witness :
    (run "example.com" worldDupZones).calls.take 4 =
      [.echoGet, .dnsResolve "example.com", .getZones, .getRecords "z1"] ∧
    ((run "example.com" worldNoZone).result = .err "Getting Zone for Domain" ∧
      (run "example.com" worldNoZone).calls =
        [.echoGet, .dnsResolve "example.com", .getZones]) :=
  ⟨(zone_lookup_first_match_or_fail "example.com" worldDupZones "5.6.7.8" ⟨5, 6, 7, 8⟩
      ⟨1, 2, 3, 4⟩ [⟨1, 2, 3, 4⟩] "k"
      [⟨"z0", "sub.example.com"⟩, ⟨"z1", "example.com"⟩, ⟨"z2", "example.com"⟩]
      rfl (by decide) rfl rfl (by decide) rfl rfl).1
      [⟨"z0", "sub.example.com"⟩] ⟨"z1", "example.com"⟩ [⟨"z2", "example.com"⟩]
      rfl (by decide) rfl,
    (zone_lookup_first_match_or_fail "example.com" worldNoZone "5.6.7.8" ⟨5, 6, 7, 8⟩
      ⟨1, 2, 3, 4⟩ [⟨1, 2, 3, 4⟩] "k" [⟨"z0", "other.com"⟩]
      rfl (by decide) rfl rfl (by decide) rfl rfl).2 (by decide)⟩

/-- C4: the record lookup selects the first record with `type == "A"` and
`name` equal to the domain (the selected record is the one the PATCH is
built from); a record list without such a record — e.g. only a CNAME —
fails the run with the record-lookup error and no PATCH. -/
theorem record_lookup_requires_type_A (domain : String) (w : World) (body : String)
    (cur dIp : IPv4) (addrs : List IPv4) (k : String) (zones : List Zone) (zone : Zone)
    (records : List DnsRecord)
    (h1 : w.echoResponse = .ok body) (h2 : parseIPv4 body = some cur)
    (h3 : w.dnsAddrs = .ok addrs) (h4 : addrs.head? = some dIp) (h5 : cur ≠ dIp)
    (h6 : w.apiKey = some k) (h7 : w.zonesResponse = .ok zones)
    (h8 : zones.find? (fun z => z.name == domain) = some zone)
    (h9 : w.recordsResponse zone.id = .ok records) :
    (∀ pre record post, records = pre ++ record :: post →
        (∀ r ∈ pre, ¬(r.type = "A" ∧ r.name = domain)) →
        record.type = "A" → record.name = domain →
        Call.patch record.zone_id record.id { record with content := cur.toText } ∈
          (run domain w).calls)
    ∧ ((∀ r ∈ records, ¬(r.type = "A" ∧ r.name = domain)) →
        (run domain w).result = .err "Getting A Record" ∧
          (run domain w).calls.countP Call.isPatch = 0) := by
  constructor
  · rintro pre record post rfl hpre htype hname
    have hfind : (pre ++ record :: post).find? (fun r => r.type == "A" && r.name == domain) =
        some record := by
      refine find?_first _ pre record post (fun x hx => ?_) (by simp [htype, hname])
      have hnx := hpre x hx
      by_contra hc
      rw [Bool.not_eq_false] at hc
      simp only [Bool.and_eq_true, beq_iff_eq] at hc
      exact hnx hc
    simp only [run, h1, h2, h3, h4, h6, h7, h8, h9, hfind]
    rw [if_neg h5]
    repeat' split
    all_goals simp
  · intro hall
    have hfind : records.find? (fun r => r.type == "A" && r.name == domain) = none := by
      rw [List.find?_eq_none]
      intro x hx
      have hnx := hall x hx
      simp only [Bool.and_eq_true, beq_iff_eq, not_and] at hnx ⊢
      exact fun ht hn => hnx ht hn
    simp [run, h1, h2, h3, h4, h5, h6, h7, h8, h9, hfind, List.countP_cons, List.countP_nil,
      Call.isPatch]

/-- Witness for C4: a zone holding only a CNAME for the domain fails with
the record-lookup error and no PATCH. -/
theorem record_lookup_requires_type_A_witness :
    (run "example.com" worldCnameOnly).result = .err "Getting A Record" ∧
      (run "example.com" worldCnameOnly).calls.countP Call.isPatch = 0 :=
  (record_lookup_requires_type_A "example.com" worldCnameOnly "5.6.7.8" ⟨5, 6, 7, 8⟩
    ⟨1, 2, 3, 4⟩ [⟨1, 2, 3, 4⟩] "k" [⟨"z1", "example.com"⟩] ⟨"z1", "example.com"⟩
    [⟨"r9", "z1", "example.com", "CNAME", "target.example.net", 300⟩]
    rfl (by decide) rfl rfl (by decide) rfl rfl (by decide) rfl).2 (by decide)

/-- C5 (amended): when the addresses differ and `CLOUDFLARE_API_KEY` is
absent, the run aborts with the environment-variable error before any
provider API call — but only after the public-address HTTP request and
the domain resolution have already been performed. -/
theorem missing_credential_aborts_before_provider_calls (domain : String) (w : World)
    (body : String) (cur dIp : IPv4) (addrs : List IPv4)
    (h1 : w.echoResponse = .ok body) (h2 : parseIPv4 body = some cur)
    (h3 : w.dnsAddrs = .ok addrs) (h4 : addrs.head? = some dIp) (h5 : cur ≠ dIp)
    (h6 : w.apiKey = none) :
    (run domain w).result = .envErr "CLOUDFLARE_API_KEY" ∧
      (run domain w).calls = [.echoGet, .dnsResolve domain] ∧
      ∀ cl ∈ (run domain w).calls, cl.isProviderCall = false := by
  simp [run, h1, h2, h3, h4, h5, h6, Call.isProviderCall]

/-- Witness for C5 (amended). -/
theorem missing_credential_aborts_before_provider_calls_witness :
    (run "example.com" worldNoKey).result = .envErr "CLOUDFLARE_API_KEY" ∧
      (run "example.com" worldNoKey).calls = [.echoGet, .dnsResolve "example.com"] ∧
      ∀ cl ∈ (run "example.com" worldNoKey).calls, cl.isProviderCall = false :=
  missing_credential_aborts_before_provider_calls "example.com" worldNoKey "5.6.7.8"
    ⟨5, 6, 7, 8⟩ ⟨1, 2, 3, 4⟩ [⟨1, 2, 3, 4⟩] rfl (by decide) rfl rfl (by decide) rfl

/-- Counterexample for C5 as stated: with the credential absent the run
does fail with the environment-variable error, but the address-echo HTTP
request (and the domain resolution) were already attempted and completed:
the abort is not "before any HTTP call". -/
theorem missing_credential_counterexample :
    (run "example.com" worldNoKey).result = .envErr "CLOUDFLARE_API_KEY" ∧
      Call.echoGet ∈ (run "example.com" worldNoKey).calls ∧
      Call.dnsResolve "example.com" ∈ (run "example.com" worldNoKey).calls := by
  decide

/-- C6 (code behaviour at the failing input): an echo body that is not a
valid IP address makes the run end in a panic (`unwrap` on the parse
result), not in an error result carrying the step's context message. -/
theorem invalid_echo_body_panics :
    parseIPv4 "abc" = none ∧
      (run "example.com" worldBadBody).result = .panic ∧
      (run "example.com" worldBadBody).calls = [.echoGet] ∧
      (run "example.com" worldBadBody).printed = [] := by
  decide

/-- C7: when the PATCH response envelope has `success == false`, the run
prints only the mismatch status line and never the
"Updated DNS Record from OLD to NEW" success message. -/
theorem patch_failure_no_success_message (domain : String) (w : World) (body : String)
    (cur dIp : IPv4) (addrs : List IPv4) (k : String) (zones : List Zone) (zone : Zone)
    (records : List DnsRecord) (record : DnsRecord)
    (h1 : w.echoResponse = .ok body) (h2 : parseIPv4 body = some cur)
    (h3 : w.dnsAddrs = .ok addrs) (h4 : addrs.head? = some dIp) (h5 : cur ≠ dIp)
    (h6 : w.apiKey = some k) (h7 : w.zonesResponse = .ok zones)
    (h8 : zones.find? (fun z => z.name == domain) = some zone)
    (h9 : w.recordsResponse zone.id = .ok records)
    (h10 : records.find? (fun r => r.type == "A" && r.name == domain) = some record)
    (h11 : w.patchResponse { record with content := cur.toText } = .ok false) :
    (run domain w).printed = [mismatchMsg] ∧
      updatedMsg dIp cur ∉ (run domain w).printed := by
  have hprinted : (run domain w).printed = [mismatchMsg] := by
    simp [run, h1, h2, h3, h4, h5, h6, h7, h8, h9, h10, h11]
  refine ⟨hprinted, ?_⟩
  rw [hprinted]
  simp [updatedMsg_ne_mismatchMsg dIp cur]

/-- Witness for C7 at scenario C. -/
theorem patch_failure_no_success_message_witness :
    (run "example.com" worldC).printed = [mismatchMsg] ∧
      updatedMsg ⟨1, 2, 3, 4⟩ ⟨5, 6, 7, 8⟩ ∉ (run "example.com" worldC).printed :=
  patch_failure_no_success_message "example.com" worldC "5.6.7.8" ⟨5, 6, 7, 8⟩ ⟨1, 2, 3, 4⟩
    [⟨1, 2, 3, 4⟩] "k" [⟨"z1", "example.com"⟩] ⟨"z1", "example.com"⟩ [exampleRecord]
    exampleRecord rfl (by decide) rfl rfl (by decide) rfl rfl (by decide) rfl (by decide) rfl

/-- C9: even when the PATCH response envelope reports
`success == false`, the process terminates with a success result
(`Ok(())`, exit code 0). -/
theorem provider_failure_still_exits_ok (domain : String) (w : World) (body : String)
    (cur dIp : IPv4) (addrs : List IPv4) (k : String) (zones : List Zone) (zone : Zone)
    (records : List DnsRecord) (record : DnsRecord)
    (h1 : w.echoResponse = .ok body) (h2 : parseIPv4 body = some cur)
    (h3 : w.dnsAddrs = .ok addrs) (h4 : addrs.head? = some dIp) (h5 : cur ≠ dIp)
    (h6 : w.apiKey = some k) (h7 : w.zonesResponse = .ok zones)
    (h8 : zones.find? (fun z => z.name == domain) = some zone)
    (h9 : w.recordsResponse zone.id = .ok records)
    (h10 : records.find? (fun r => r.type == "A" && r.name == domain) = some record)
    (h11 : w.patchResponse { record with content := cur.toText } = .ok false) :
    (run domain w).result = .ok := by
  simp [run, h1, h2, h3, h4, h5, h6, h7, h8, h9, h10, h11]

/-- Witness for C9 at scenario C. -/
theorem provider_failure_still_exits_ok_witness :
    (run "example.com" worldC).result = .ok :=
  provider_failure_still_exits_ok "example.com" worldC "5.6.7.8" ⟨5, 6, 7, 8⟩ ⟨1, 2, 3, 4⟩
    [⟨1, 2, 3, 4⟩] "k" [⟨"z1", "example.com"⟩] ⟨"z1", "example.com"⟩ [exampleRecord]
    exampleRecord rfl (by decide) rfl rfl (by decide) rfl rfl (by decide) rfl (by decide) rfl

/-- C10: whenever the current address equals the first resolved address,
the run succeeds having performed only the echo request and the name
resolution, whatever the credential variable holds — in particular a
missing `CLOUDFLARE_API_KEY` never causes a failure in that case. -/
theorem credential_read_after_comparison (domain : String) (w : World) (body : String)
    (cur : IPv4) (addrs : List IPv4)
    (h1 : w.echoResponse = .ok body) (h2 : parseIPv4 body = some cur)
    (h3 : w.dnsAddrs = .ok addrs) (h4 : addrs.head? = some cur) :
    (run domain w).result = .ok ∧
      (run domain w).calls = [.echoGet, .dnsResolve domain] ∧
      (run domain w).printed = [matchMsg] := by
  simp [run, h1, h2, h3, h4]

/-- Witness for C10 at scenario A, whose world has no credential set. -/
theorem credential_read_after_comparison_witness :
    worldA.apiKey = none ∧
      ((run "example.com" worldA).result = .ok ∧
        (run "example.com" worldA).calls = [.echoGet, .dnsResolve "example.com"] ∧
        (run "example.com" worldA).printed = [matchMsg]) :=
  ⟨rfl, credential_read_after_comparison "example.com" worldA "1.2.3.4" ⟨1, 2, 3, 4⟩
    [⟨1, 2, 3, 4⟩] rfl (by decide) rfl rfl⟩

/-- Witness for C8 at the concrete address text `"1.2.3.4"`. -/
theorem parse_toText_roundtrip_witness :
    parseIPv4 "1.2.3.4" = some ⟨1, 2, 3, 4⟩ ∧ IPv4.toText ⟨1, 2, 3, 4⟩ = "1.2.3.4" :=
  ⟨by decide, parse_toText_roundtrip (by decide)⟩

end CloudflareDdns
